import Mathlib

/-!
Verification of the oat-file-assistant freshness logic
(`oat_file_assistant.cc`, namespace `art`).

The development shallowly embeds the pure decision logic of the source:

* `GivenOatFileStatus` — the per-candidate freshness state machine,
* `OatFileInfoStatus` — `OatFileInfo::Status`, including the vdex fallback,
* `GetDexOptNeeded` / `CompilerFilterIsOkay` — the regeneration decision,
* `GetBestInfo` — the candidate selector,
* `GenerateOatFileNoChecks` / `MakeUpToDate` — the regeneration pipeline,
  with an explicit two-file filesystem state so that deletion behaviour is
  observable,
* `ReleaseFileForUse` — the release-for-use policy.

Stateful C++ (lazily cached fields, `Runtime::Current()` lookups, filesystem
calls) is modelled by passing the observed values explicitly: a candidate is
described by the header fields the source reads, the assistant by the cached
oracle results (`required_dex_checksums_`, `has_original_dex_files_`,
`cached_image_info_`).  Collaborator predicates on compiler filters
(`CompilerFilter::DependsOnImageChecksum` and friends) are opaque booleans,
exactly as the source consumes them.

Definitions whose names begin with `Spec` are transcribed from the
natural-language specification's wording, to be compared with the embedding
of the source.
-/

namespace OatFileAssistant

/-- `OatFileAssistant::OatStatus` from the source header. -/
inductive OatStatus
  | kOatCannotOpen
  | kOatDexOutOfDate
  | kOatBootImageOutOfDate
  | kOatRelocationOutOfDate
  | kOatUpToDate
deriving DecidableEq, Repr, Fintype

/-- `OatFileAssistant::DexOptNeeded` from the source header. -/
inductive DexOptNeeded
  | kNoDexOptNeeded
  | kDex2OatFromScratch
  | kDex2OatForBootImage
  | kDex2OatForRelocation
  | kDex2OatForFilter
deriving DecidableEq, Repr, Fintype

/-- `OatFileAssistant::ResultOfAttemptToUpdate` from the source header. -/
inductive ResultOfAttemptToUpdate
  | kUpdateFailed
  | kUpdateNotAttempted
  | kUpdateSucceeded
deriving DecidableEq, Repr, Fintype

/-- `OatFileAssistant::ImageInfo`: the cached boot-image snapshot
(`GetRuntimeImageInfo` fills `oat_checksum`, `oat_data_begin`,
`patch_delta`). -/
structure ImageInfo where
  oat_checksum : Nat
  oat_data_begin : Nat
  patch_delta : Int
deriving DecidableEq, Repr

/-- The header fields of an opened oat file that `GivenOatFileStatus` reads.
The two `CompilerFilter` predicates on the file's compiler filter are carried
as the booleans the source obtains from the `CompilerFilter` collaborator. -/
structure OatFileData where
  /-- `GetOatHeader().IsConcurrentCopying()` -/
  is_cc : Bool
  /-- the per-dex-unit checksums recorded in the file's vdex
  (`VdexFile::GetLocationChecksum(i)` for `i < GetNumberOfDexFiles()`) -/
  checksums : List Nat
  /-- `CompilerFilter::DependsOnImageChecksum(GetCompilerFilter())` -/
  depends_on_image_checksum : Bool
  /-- `CompilerFilter::IsAotCompilationEnabled(GetCompilerFilter())` -/
  is_aot_enabled : Bool
  /-- `GetOatHeader().GetImageFileLocationOatChecksum()` -/
  image_oat_checksum : Nat
  /-- `IsPic()` -/
  is_pic : Bool
  /-- `GetOatHeader().GetImageFileLocationOatDataBegin()` -/
  oat_data_begin : Nat
  /-- `GetOatHeader().GetImagePatchDelta()` -/
  patch_delta : Int
deriving DecidableEq, Repr

/-- The assistant-level cached oracle state read by the freshness evaluation:
`kUseReadBarrier`, `GetRequiredDexChecksums()` (`none` models a null result),
`has_original_dex_files_`, and `GetImageInfo()` (`none` models a failed
image-info load). -/
structure AssistantEnv where
  runtime_is_cc : Bool
  required_dex_checksums : Option (List Nat)
  has_original_dex_files : Bool
  image_info : Option ImageInfo
deriving DecidableEq, Repr

/-- The per-index comparison loop of `DexChecksumUpToDate`: walks both
checksum lists and fails at the first index where they differ. -/
def checksumsAllMatch : List Nat → List Nat → Bool
  | [], [] => true
  | [], _ :: _ => false
  | _ :: _, [] => false
  | e :: es, a :: bs => if e ≠ a then false else checksumsAllMatch es bs

/-- `OatFileAssistant::DexChecksumUpToDate(const VdexFile&)`: a null required
list is treated as up to date; otherwise the counts must agree and every
index must match. -/
def DexChecksumUpToDate (required : Option (List Nat)) (actual : List Nat) : Bool :=
  match required with
  | none => true
  | some req => if req.length ≠ actual.length then false else checksumsAllMatch req actual

/-- The relocation portion of `GivenOatFileStatus` (executed after the
checksum and boot-image gates pass): for a non-PIC file with AOT code,
missing image info or a mismatched `oat_data_begin` / patch delta means
`kOatRelocationOutOfDate`; otherwise `kOatUpToDate`. -/
def relocationCheck (env : AssistantEnv) (f : OatFileData) : OatStatus :=
  if f.is_aot_enabled then
    if !f.is_pic then
      match env.image_info with
      | none => OatStatus.kOatRelocationOutOfDate
      | some info =>
        if f.oat_data_begin ≠ info.oat_data_begin then OatStatus.kOatRelocationOutOfDate
        else if f.patch_delta ≠ info.patch_delta then OatStatus.kOatRelocationOutOfDate
        else OatStatus.kOatUpToDate
    else OatStatus.kOatUpToDate
  else OatStatus.kOatUpToDate

/-- `OatFileAssistant::GivenOatFileStatus`, gate for gate: read-barrier
compatibility, dex checksums, boot-image checksum (with the grudging-accept
fallback when no image info is available and the original dex files are
gone), then relocation. -/
def GivenOatFileStatus (env : AssistantEnv) (f : OatFileData) : OatStatus :=
  if f.is_cc ≠ env.runtime_is_cc then OatStatus.kOatCannotOpen
  else if !DexChecksumUpToDate env.required_dex_checksums f.checksums then
    OatStatus.kOatDexOutOfDate
  else if f.depends_on_image_checksum then
    match env.image_info with
    | none =>
      if env.has_original_dex_files then OatStatus.kOatBootImageOutOfDate
      else relocationCheck env f
    | some info =>
      if f.image_oat_checksum ≠ info.oat_checksum then OatStatus.kOatBootImageOutOfDate
      else relocationCheck env f
  else relocationCheck env f

/-- `OatFileInfo::Status`, with the lazy cache elided (the cached value
equals this function of the observed inputs): if the oat file did not open
(`oat_file = none`), fall back to the vdex companion, whose observation is
`none` when `VdexFile::Open` failed and `some` of its checksum list when it
opened; otherwise delegate to `GivenOatFileStatus`. -/
def OatFileInfoStatus (env : AssistantEnv) (oat_file : Option OatFileData)
    (vdex_checksums : Option (List Nat)) : OatStatus :=
  match oat_file with
  | none =>
    match vdex_checksums with
    | none => OatStatus.kOatCannotOpen
    | some chk =>
      if DexChecksumUpToDate env.required_dex_checksums chk then
        OatStatus.kOatBootImageOutOfDate
      else OatStatus.kOatDexOutOfDate
  | some f => GivenOatFileStatus env f

/-- `OatFileInfo::IsUseable`. -/
def IsUseable (st : OatStatus) : Bool :=
  match st with
  | OatStatus.kOatCannotOpen => false
  | OatStatus.kOatDexOutOfDate => false
  | OatStatus.kOatBootImageOutOfDate => false
  | OatStatus.kOatRelocationOutOfDate => true
  | OatStatus.kOatUpToDate => true

/-- `OatFileInfo::CompilerFilterIsOkay`: false when the file did not open;
false when the profile changed and the file's filter depends on the profile;
otherwise `CompilerFilter::IsAsGoodAs(current, target)`, carried as the
boolean `is_as_good_as`. -/
def CompilerFilterIsOkay (file_open : Bool) (profile_changed : Bool)
    (depends_on_profile : Bool) (is_as_good_as : Bool) : Bool :=
  if !file_open then false
  else if profile_changed && depends_on_profile then false
  else is_as_good_as

/-- `OatFileInfo::GetDexOptNeeded`, clause for clause.  `filter_okay` is the
result of `CompilerFilterIsOkay`, `compilation_desired` is
`CompilerFilter::IsAotCompilationEnabled(target)`, `st` the candidate's
`Status()` and `has_original_dex_files` the assistant's
`HasOriginalDexFiles()`. -/
def GetDexOptNeeded (filter_okay : Bool) (compilation_desired : Bool)
    (st : OatStatus) (has_original_dex_files : Bool) : DexOptNeeded :=
  if filter_okay && st = OatStatus.kOatUpToDate then DexOptNeeded.kNoDexOptNeeded
  else if filter_okay && !compilation_desired && st = OatStatus.kOatRelocationOutOfDate then
    DexOptNeeded.kNoDexOptNeeded
  else if filter_okay && st = OatStatus.kOatRelocationOutOfDate then
    DexOptNeeded.kDex2OatForRelocation
  else if IsUseable st then DexOptNeeded.kDex2OatForFilter
  else if st = OatStatus.kOatBootImageOutOfDate then DexOptNeeded.kDex2OatForBootImage
  else if has_original_dex_files then DexOptNeeded.kDex2OatFromScratch
  else DexOptNeeded.kNoDexOptNeeded

/-- The two candidate locations of the assistant: `odex_` (co-located) and
`oat_` (dalvik-cache). -/
inductive OatCandidate
  | odex
  | oat
deriving DecidableEq, Repr, Fintype

/-- `OatFileAssistant::GetBestInfo`, branch for branch, as a function of the
values the source reads: `dex_parent_writable_`, `odex_.Status()`,
`oat_.Status()` (through `IsUseable`), and `HasOriginalDexFiles()`. -/
def GetBestInfo (dex_parent_writable : Bool) (odex_status : OatStatus)
    (oat_status : OatStatus) (has_original_dex_files : Bool) : OatCandidate :=
  if dex_parent_writable then OatCandidate.odex
  else if IsUseable oat_status then OatCandidate.oat
  else if odex_status = OatStatus.kOatUpToDate then OatCandidate.odex
  else if has_original_dex_files then OatCandidate.oat
  else if odex_status = OatStatus.kOatCannotOpen then OatCandidate.oat
  else OatCandidate.odex

/-- Modelled from the spec: the numeric codes of the `DexOptNeeded`
enumeration, which lives in `oat_file_assistant.h` (a header that is not
among the sources).  `kNoDexOptNeeded` is the zero code and the positive
codes enumerate the regeneration kinds, matching the spec's
`RegenerationDecision` with a "no action" zero. -/
def DexOptNeeded.toInt : DexOptNeeded → Int
  | DexOptNeeded.kNoDexOptNeeded => 0
  | DexOptNeeded.kDex2OatFromScratch => 1
  | DexOptNeeded.kDex2OatForBootImage => 2
  | DexOptNeeded.kDex2OatForRelocation => 3
  | DexOptNeeded.kDex2OatForFilter => 4

/-- `OatFileAssistant::GetDexOptNeeded` (the assistant-level, `int`-valued
wrapper): the best candidate's decision, negated unless the best candidate
is the oat location or the decision is `kDex2OatFromScratch`. -/
def AssistantGetDexOptNeeded (best_is_oat_location : Bool) (d : DexOptNeeded) : Int :=
  if best_is_oat_location || d = DexOptNeeded.kDex2OatFromScratch then d.toInt
  else -d.toInt

/-- The observable artifact state on disk: whether the oat file and the vdex
file for the candidate being regenerated exist. -/
structure FsState where
  oat_exists : Bool
  vdex_exists : Bool
deriving DecidableEq, Repr, Fintype

/-- The outcomes of the fallible steps of `GenerateOatFileNoChecks`, in
source order: `IsDex2OatEnabled`, `Filename() != nullptr`, `stat` of the dex
location, `PrepareOdexDirectories` (consulted only for the odex location),
the two `CreateEmptyFile`/`fchmod` pairs, the `Dex2Oat` subprocess, and the
two `FlushCloseOrErase` calls. -/
structure GenEnv where
  dex2oat_enabled : Bool
  filename_known : Bool
  dex_location_exists : Bool
  is_oat_location : Bool
  prepare_directories_ok : Bool
  create_vdex_ok : Bool
  fchmod_vdex_ok : Bool
  create_oat_ok : Bool
  fchmod_oat_ok : Bool
  dex2oat_ok : Bool
  vdex_close_ok : Bool
  oat_close_ok : Bool
deriving DecidableEq, Repr

/-- `OatFileAssistant::GenerateOatFileNoChecks` with the filesystem effects
on the two output files made explicit.  `CreateEmptyFile` makes the file
exist; `File::Erase` truncates but does not remove a file, so only the
explicit `unlink` calls delete: both files after a `Dex2Oat` failure, and
exactly the file whose `FlushCloseOrErase` failed on a close failure. -/
def GenerateOatFileNoChecks (e : GenEnv) (fs : FsState) :
    ResultOfAttemptToUpdate × FsState :=
  if !e.dex2oat_enabled then (ResultOfAttemptToUpdate.kUpdateNotAttempted, fs)
  else if !e.filename_known then (ResultOfAttemptToUpdate.kUpdateNotAttempted, fs)
  else if !e.dex_location_exists then (ResultOfAttemptToUpdate.kUpdateNotAttempted, fs)
  else if !e.is_oat_location && !e.prepare_directories_ok then
    (ResultOfAttemptToUpdate.kUpdateNotAttempted, fs)
  else if !e.create_vdex_ok then (ResultOfAttemptToUpdate.kUpdateNotAttempted, fs)
  else
    let fs1 : FsState := { fs with vdex_exists := true }
    if !e.fchmod_vdex_ok then (ResultOfAttemptToUpdate.kUpdateNotAttempted, fs1)
    else if !e.create_oat_ok then (ResultOfAttemptToUpdate.kUpdateNotAttempted, fs1)
    else
      let fs2 : FsState := { fs1 with oat_exists := true }
      if !e.fchmod_oat_ok then (ResultOfAttemptToUpdate.kUpdateNotAttempted, fs2)
      else if !e.dex2oat_ok then
        (ResultOfAttemptToUpdate.kUpdateFailed, { oat_exists := false, vdex_exists := false })
      else if !e.vdex_close_ok then
        (ResultOfAttemptToUpdate.kUpdateFailed, { fs2 with vdex_exists := false })
      else if !e.oat_close_ok then
        (ResultOfAttemptToUpdate.kUpdateFailed, { fs2 with oat_exists := false })
      else (ResultOfAttemptToUpdate.kUpdateSucceeded, fs2)

/-- `OatFileAssistant::MakeUpToDate`: parse the runtime filter option
(`filter_parse_ok` is the outcome of `GetRuntimeCompilerFilterOption`), ask
the best candidate for its decision, succeed immediately on
`kNoDexOptNeeded`, and otherwise run `GenerateOatFileNoChecks`.  The best
candidate is described by the inputs of its `GetDexOptNeeded`. -/
def MakeUpToDate (filter_parse_ok : Bool) (compilation_desired : Bool)
    (profile_changed : Bool) (best_file_open : Bool)
    (best_depends_on_profile : Bool) (best_is_as_good_as : Bool)
    (best_status : OatStatus) (has_original_dex_files : Bool)
    (e : GenEnv) (fs : FsState) : ResultOfAttemptToUpdate × FsState :=
  if !filter_parse_ok then (ResultOfAttemptToUpdate.kUpdateNotAttempted, fs)
  else
    match GetDexOptNeeded
        (CompilerFilterIsOkay best_file_open profile_changed
          best_depends_on_profile best_is_as_good_as)
        compilation_desired best_status has_original_dex_files with
    | DexOptNeeded.kNoDexOptNeeded => (ResultOfAttemptToUpdate.kUpdateSucceeded, fs)
    | DexOptNeeded.kDex2OatFromScratch => GenerateOatFileNoChecks e fs
    | DexOptNeeded.kDex2OatForBootImage => GenerateOatFileNoChecks e fs
    | DexOptNeeded.kDex2OatForRelocation => GenerateOatFileNoChecks e fs
    | DexOptNeeded.kDex2OatForFilter => GenerateOatFileNoChecks e fs

/-- `OatFileInfo::ReleaseFileForUse`.  `status1` and `executable1` describe
the currently loaded file; `status2` is the status re-derived after
`load_executable_` is cleared and the candidate `Reset`, at which point the
file is reopened non-executable (`OatFile::Open` with `executable = false`),
so a file released on that path carries `executable = false`.  The result is
`some (status, executable)` of the released file, or `none` for the null
unique_ptr. -/
def ReleaseFileForUse (status1 : OatStatus) (executable1 : Bool)
    (status2 : OatStatus) : Option (OatStatus × Bool) :=
  if status1 = OatStatus.kOatUpToDate then some (status1, executable1)
  else if status1 = OatStatus.kOatRelocationOutOfDate && !executable1 then
    some (status1, executable1)
  else if status1 = OatStatus.kOatRelocationOutOfDate then
    if IsUseable status2 then some (status2, false) else none
  else none

/-- Transcribed from the spec's words (§4.4 gate 2 / C1): the candidate's
per-unit checksum list, compared against the Oracle's, has a different count
or differs at some index.  When the Oracle has no list there is nothing to
compare against. -/
def SpecChecksumListsDiffer (required : Option (List Nat)) (actual : List Nat) : Bool :=
  match required with
  | none => false
  | some req =>
    decide (req.length ≠ actual.length) ||
      (List.range req.length).any fun i => decide (req.getD i 0 ≠ actual.getD i 0)

/-- Transcribed from the spec's words (§4.4 gate 3 / C5): the boot-image
gate rejects (yielding `BootImageOutOfDate`) only when the candidate's
filter depends on the boot-image checksum and either no boot-image info is
available while the original source still is, or the info is available and
the recorded checksum differs. -/
def SpecBootImageGateRejects (env : AssistantEnv) (f : OatFileData) : Bool :=
  f.depends_on_image_checksum &&
    match env.image_info with
    | none => env.has_original_dex_files
    | some info => decide (f.image_oat_checksum ≠ info.oat_checksum)

/-- Transcribed from the spec's words (§4.4 gate 4 / C1): boot-image info is
unavailable, or the embedded expected base address or patch delta differs
from the current image's. -/
def SpecRelocationDiffers (env : AssistantEnv) (f : OatFileData) : Bool :=
  match env.image_info with
  | none => true
  | some info =>
    decide (f.oat_data_begin ≠ info.oat_data_begin) ||
      decide (f.patch_delta ≠ info.patch_delta)

/-- Transcribed from the spec's words (§4.4 / C1): the freshness evaluation
as a sequence of short-circuiting gates, terminal result first match. -/
def SpecFreshnessStatus (env : AssistantEnv) (f : OatFileData) : OatStatus :=
  if f.is_cc ≠ env.runtime_is_cc then OatStatus.kOatCannotOpen
  else if SpecChecksumListsDiffer env.required_dex_checksums f.checksums then
    OatStatus.kOatDexOutOfDate
  else if SpecBootImageGateRejects env f then OatStatus.kOatBootImageOutOfDate
  else if f.is_aot_enabled && !f.is_pic && SpecRelocationDiffers env f then
    OatStatus.kOatRelocationOutOfDate
  else OatStatus.kOatUpToDate

/-- Transcribed from the spec's words (§4.5 / C2): the regeneration
decision, first match wins, with "filter-ok" supplied by the caller. -/
def SpecRegenerationDecision (filter_ok : Bool) (target_requires_compiled : Bool)
    (st : OatStatus) (source_available : Bool) : DexOptNeeded :=
  if filter_ok && st = OatStatus.kOatUpToDate then DexOptNeeded.kNoDexOptNeeded
  else if filter_ok && !target_requires_compiled &&
      st = OatStatus.kOatRelocationOutOfDate then DexOptNeeded.kNoDexOptNeeded
  else if filter_ok && st = OatStatus.kOatRelocationOutOfDate then
    DexOptNeeded.kDex2OatForRelocation
  else if st = OatStatus.kOatRelocationOutOfDate || st = OatStatus.kOatUpToDate then
    DexOptNeeded.kDex2OatForFilter
  else if st = OatStatus.kOatBootImageOutOfDate then DexOptNeeded.kDex2OatForBootImage
  else if source_available then DexOptNeeded.kDex2OatFromScratch
  else DexOptNeeded.kNoDexOptNeeded

/-- Transcribed from the spec's words (§4.6 / C3): the candidate-selection
policy. -/
def SpecSelector (writable : Bool) (odex_status : OatStatus)
    (oat_status : OatStatus) (source_available : Bool) : OatCandidate :=
  if writable then OatCandidate.odex
  else if oat_status = OatStatus.kOatRelocationOutOfDate ∨
      oat_status = OatStatus.kOatUpToDate then OatCandidate.oat
  else if odex_status = OatStatus.kOatUpToDate then OatCandidate.odex
  else if source_available then OatCandidate.oat
  else if odex_status = OatStatus.kOatCannotOpen then OatCandidate.oat
  else OatCandidate.odex

/-- The per-index loop of `DexChecksumUpToDate` agrees, on lists of equal
length, with the index-quantified comparison used by the spec's wording. -/
theorem checksumsAllMatch_eq_not_any :
    ∀ (req act : List Nat), req.length = act.length →
      checksumsAllMatch req act =
        !((List.range req.length).any fun i => decide (req.getD i 0 ≠ act.getD i 0))
  | [], [], _ => rfl
  | [], _ :: _, h => absurd h (by simp)
  | _ :: _, [], h => absurd h (by simp)
  | e :: es, a :: bs, h => by
    have hlen : es.length = bs.length := by simpa using h
    have ih := checksumsAllMatch_eq_not_any es bs hlen
    simp only [checksumsAllMatch, List.length_cons, List.range_succ_eq_map,
      List.any_cons, List.any_map, Function.comp_def, List.getD_cons_succ,
      List.getD_cons_zero, Bool.not_or, ih]
    by_cases hea : e = a
    · simp [hea]
    · simp [hea]

/-- The spec's "different counts or differ at any index" is exactly the
negation of the source's `DexChecksumUpToDate`. -/
theorem specChecksumListsDiffer_eq_not_upToDate (required : Option (List Nat))
    (actual : List Nat) :
    SpecChecksumListsDiffer required actual = !DexChecksumUpToDate required actual := by
  cases required with
  | none => rfl
  | some req =>
    simp only [SpecChecksumListsDiffer, DexChecksumUpToDate]
    by_cases hl : req.length = actual.length
    · rw [checksumsAllMatch_eq_not_any req actual hl]
      simp [hl]
    · simp [hl]

/-- The relocation portion of `GivenOatFileStatus`, rewritten as the spec's
one-line condition. -/
theorem relocationCheck_eq_spec (env : AssistantEnv) (f : OatFileData) :
    relocationCheck env f =
      (if f.is_aot_enabled && !f.is_pic && SpecRelocationDiffers env f then
        OatStatus.kOatRelocationOutOfDate
      else OatStatus.kOatUpToDate) := by
  cases haot : f.is_aot_enabled with
  | false => simp [relocationCheck, haot]
  | true =>
    cases hpic : f.is_pic with
    | true => simp [relocationCheck, haot, hpic]
    | false =>
      cases hinfo : env.image_info with
      | none => simp [relocationCheck, SpecRelocationDiffers, haot, hpic, hinfo]
      | some info =>
        by_cases hb : f.oat_data_begin = info.oat_data_begin
        · by_cases hd : f.patch_delta = info.patch_delta
          · simp [relocationCheck, SpecRelocationDiffers, haot, hpic, hinfo, hb, hd]
          · simp [relocationCheck, SpecRelocationDiffers, haot, hpic, hinfo, hb, hd]
        · simp [relocationCheck, SpecRelocationDiffers, haot, hpic, hinfo, hb]

/-- The relocation portion never produces `kOatBootImageOutOfDate` — used to
read "evaluation proceeds past the boot-image gate" off the final result. -/
theorem relocationCheck_ne_bootImageOutOfDate (env : AssistantEnv) (f : OatFileData) :
    relocationCheck env f ≠ OatStatus.kOatBootImageOutOfDate := by
  rw [relocationCheck_eq_spec]
  split
  · intro hc
    exact OatStatus.noConfusion hc
  · intro hc
    exact OatStatus.noConfusion hc

/-- C1: for every opened candidate, `GivenOatFileStatus` applies its gates
in order with short-circuiting — a concurrent-copying mismatch yields
`kOatCannotOpen`; a checksum-count or per-index mismatch yields
`kOatDexOutOfDate`; then the boot-image gate; then, for a non-PIC candidate
whose filter enables AOT code, missing boot-image info or a differing
`oat_data_begin` / patch delta yields `kOatRelocationOutOfDate`; otherwise
`kOatUpToDate`.  Stated as equality with the gate sequence transcribed from
the spec. -/
theorem GivenOatFileStatus_eq_spec (env : AssistantEnv) (f : OatFileData) :
    GivenOatFileStatus env f = SpecFreshnessStatus env f := by
  unfold GivenOatFileStatus SpecFreshnessStatus
  rw [specChecksumListsDiffer_eq_not_upToDate, ← relocationCheck_eq_spec]
  by_cases h1 : f.is_cc = env.runtime_is_cc
  · by_cases h2 : DexChecksumUpToDate env.required_dex_checksums f.checksums = true
    · cases hdep : f.depends_on_image_checksum with
      | false => simp [h1, h2, SpecBootImageGateRejects, hdep]
      | true =>
        cases hinfo : env.image_info with
        | none =>
          cases horig : env.has_original_dex_files with
          | true => simp [h1, h2, SpecBootImageGateRejects, hdep, hinfo, horig]
          | false => simp [h1, h2, SpecBootImageGateRejects, hdep, hinfo, horig]
        | some info =>
          by_cases hchk : f.image_oat_checksum = info.oat_checksum
          · simp [h1, h2, SpecBootImageGateRejects, hdep, hinfo, hchk]
          · simp [h1, h2, SpecBootImageGateRejects, hdep, hinfo, hchk]
    · rw [Bool.not_eq_true] at h2
      simp [h1, h2]
  · simp [h1]

/-- C2: for every target filter and profile flag, `GetDexOptNeeded` computes
the spec's first-match decision table, where "filter-ok" is "the candidate's
filter is as good as the target and not (profile changed and the filter
depends on the profile)".  The hypothesis records that a usable status only
arises from an opened oat file (usable statuses are produced by
`GivenOatFileStatus`, which requires `GetFile() != nullptr`). -/
theorem GetDexOptNeeded_eq_spec :
    ∀ (file_open profile_changed depends_on_profile is_as_good_as
        compilation_desired : Bool) (st : OatStatus) (has_original : Bool),
      (IsUseable st = true → file_open = true) →
      GetDexOptNeeded
          (CompilerFilterIsOkay file_open profile_changed depends_on_profile is_as_good_as)
          compilation_desired st has_original =
        SpecRegenerationDecision
          (is_as_good_as && !(profile_changed && depends_on_profile))
          compilation_desired st has_original := by
  decide

/-- Witness for C2 at a concrete input: an open file whose filter depends on
a changed profile is not filter-ok, and with an up-to-date status the
decision is `kDex2OatForFilter` on both sides. -/
theorem GetDexOptNeeded_eq_spec_witness :
    GetDexOptNeeded (CompilerFilterIsOkay true true true true) true
        OatStatus.kOatUpToDate true =
      SpecRegenerationDecision (true && !(true && true)) true
        OatStatus.kOatUpToDate true :=
  GetDexOptNeeded_eq_spec true true true true true OatStatus.kOatUpToDate true
    (fun _ => rfl)

/-- C3: `GetBestInfo` implements the spec's selection policy — always the
odex candidate when the dex parent directory is writable; otherwise the oat
candidate if usable, else the odex candidate if exactly up to date, else the
oat candidate if the original dex files are available, else the odex
candidate unless it cannot be opened, in which case the oat candidate.  In
particular (second conjunct), with an unwritable parent and an up-to-date
oat copy, the oat copy is selected. -/
theorem GetBestInfo_eq_spec :
    (∀ (w : Bool) (s t : OatStatus) (h : Bool),
      GetBestInfo w s t h = SpecSelector w s t h) ∧
    (∀ (s : OatStatus) (h : Bool),
      GetBestInfo false s OatStatus.kOatUpToDate h = OatCandidate.oat) := by
  decide

/-- A `GenEnv` in which every step succeeds. -/
def allOkGenEnv : GenEnv :=
  ⟨true, true, true, true, true, true, true, true, true, true, true, true⟩

/-- C4 counterexample: a regeneration attempt in which the subprocess
succeeds but closing the vdex file fails returns `kUpdateFailed`, yet leaves
the oat file on disk — refuting "neither the oat file nor the vdex file
exists on disk after every failed regeneration". -/
theorem GenerateOatFileNoChecks_failure_leaves_oat :
    (GenerateOatFileNoChecks { allOkGenEnv with vdex_close_ok := false }
        { oat_exists := false, vdex_exists := false }).1 =
      ResultOfAttemptToUpdate.kUpdateFailed ∧
    (GenerateOatFileNoChecks { allOkGenEnv with vdex_close_ok := false }
        { oat_exists := false, vdex_exists := false }).2.oat_exists = true := by
  decide

/-- C4 (amended): for every attempt returning `kUpdateFailed` — on
subprocess failure both outputs are deleted; on a close failure of either
output only the corresponding file is deleted: after a vdex close failure
the vdex file is gone but the oat file remains on disk, and after an oat
close failure the oat file is gone but the vdex file remains. -/
theorem GenerateOatFileNoChecks_failure_cleanup :
    ∀ (e : GenEnv) (fs : FsState),
      (GenerateOatFileNoChecks e fs).1 = ResultOfAttemptToUpdate.kUpdateFailed →
      ((e.dex2oat_ok = false →
          (GenerateOatFileNoChecks e fs).2.oat_exists = false ∧
          (GenerateOatFileNoChecks e fs).2.vdex_exists = false) ∧
       (e.dex2oat_ok = true → e.vdex_close_ok = false →
          (GenerateOatFileNoChecks e fs).2.vdex_exists = false ∧
          (GenerateOatFileNoChecks e fs).2.oat_exists = true) ∧
       (e.dex2oat_ok = true → e.vdex_close_ok = true →
          (GenerateOatFileNoChecks e fs).2.oat_exists = false ∧
          (GenerateOatFileNoChecks e fs).2.vdex_exists = true)) := by
  intro e fs
  rcases e with ⟨a, b, c, d, p, cv, mv, co, mo, dx, vc, oc⟩
  rcases fs with ⟨fo, fv⟩
  revert a b c d p cv mv co mo dx vc oc fo fv
  decide

/-- Witness for C4 (amended): a vdex close failure deletes the vdex file
while the oat file remains on disk. -/
theorem GenerateOatFileNoChecks_failure_cleanup_witness :
    (GenerateOatFileNoChecks { allOkGenEnv with vdex_close_ok := false }
        { oat_exists := false, vdex_exists := false }).2.vdex_exists = false ∧
    (GenerateOatFileNoChecks { allOkGenEnv with vdex_close_ok := false }
        { oat_exists := false, vdex_exists := false }).2.oat_exists = true :=
  (GenerateOatFileNoChecks_failure_cleanup
    { allOkGenEnv with vdex_close_ok := false }
    { oat_exists := false, vdex_exists := false } (by decide)).2.1 rfl rfl

/-- C5: in the boot-image gate (filter depends on the image checksum and the
earlier gates pass): with no boot-image info available, evaluation proceeds
past the gate (to the relocation check) iff the original dex files are also
unavailable; if they are available the status is `kOatBootImageOutOfDate`;
and with image info available but a differing recorded checksum the status
is `kOatBootImageOutOfDate`. -/
theorem bootImageGate_grudging_accept :
    ∀ (env : AssistantEnv) (f : OatFileData),
      f.depends_on_image_checksum = true →
      f.is_cc = env.runtime_is_cc →
      DexChecksumUpToDate env.required_dex_checksums f.checksums = true →
      ((env.image_info = none →
          ((GivenOatFileStatus env f = relocationCheck env f ↔
              env.has_original_dex_files = false) ∧
           (env.has_original_dex_files = true →
              GivenOatFileStatus env f = OatStatus.kOatBootImageOutOfDate))) ∧
       (∀ info, env.image_info = some info →
          f.image_oat_checksum ≠ info.oat_checksum →
          GivenOatFileStatus env f = OatStatus.kOatBootImageOutOfDate)) := by
  intro env f hdep hcc hchk
  constructor
  · intro hnone
    constructor
    · cases horig : env.has_original_dex_files with
      | true =>
        have hres : GivenOatFileStatus env f = OatStatus.kOatBootImageOutOfDate := by
          simp [GivenOatFileStatus, hcc, hchk, hdep, hnone, horig]
        rw [hres]
        constructor
        · intro hbad
          exact absurd hbad.symm (relocationCheck_ne_bootImageOutOfDate env f)
        · intro hbad
          exact absurd hbad (by decide)
      | false =>
        simp [GivenOatFileStatus, hcc, hchk, hdep, hnone, horig]
    · intro horig
      simp [GivenOatFileStatus, hcc, hchk, hdep, hnone, horig]
  · intro info hsome hne
    simp [GivenOatFileStatus, hcc, hchk, hdep, hsome, hne]

/-- Witness for C5: a candidate depending on the image checksum, matching
checksums, no image info, original dex files present — status is
`kOatBootImageOutOfDate`. -/
theorem bootImageGate_grudging_accept_witness :
    GivenOatFileStatus
        { runtime_is_cc := true, required_dex_checksums := some [5],
          has_original_dex_files := true, image_info := none }
        { is_cc := true, checksums := [5], depends_on_image_checksum := true,
          is_aot_enabled := true, image_oat_checksum := 0, is_pic := false,
          oat_data_begin := 0, patch_delta := 0 } =
      OatStatus.kOatBootImageOutOfDate :=
  ((bootImageGate_grudging_accept
      { runtime_is_cc := true, required_dex_checksums := some [5],
        has_original_dex_files := true, image_info := none }
      { is_cc := true, checksums := [5], depends_on_image_checksum := true,
        is_aot_enabled := true, image_oat_checksum := 0, is_pic := false,
        oat_data_begin := 0, patch_delta := 0 }
      rfl rfl (by decide)).1 rfl).2 rfl

/-- C6: when the oat file cannot be opened, `Status` falls back to the vdex
companion: no vdex → `kOatCannotOpen`; vdex open with checksums matching the
required ones → `kOatBootImageOutOfDate`; with a mismatch →
`kOatDexOutOfDate`. -/
theorem Status_vdex_fallback :
    ∀ (env : AssistantEnv) (chk : List Nat),
      OatFileInfoStatus env none none = OatStatus.kOatCannotOpen ∧
      (DexChecksumUpToDate env.required_dex_checksums chk = true →
        OatFileInfoStatus env none (some chk) = OatStatus.kOatBootImageOutOfDate) ∧
      (DexChecksumUpToDate env.required_dex_checksums chk = false →
        OatFileInfoStatus env none (some chk) = OatStatus.kOatDexOutOfDate) := by
  intro env chk
  refine ⟨rfl, ?_, ?_⟩ <;> intro h <;> simp [OatFileInfoStatus, h]

/-- Witness for C6: with required checksums `[7]` and a vdex recording
`[7]`, the fallback status is `kOatBootImageOutOfDate`. -/
theorem Status_vdex_fallback_witness :
    OatFileInfoStatus
        { runtime_is_cc := true, required_dex_checksums := some [7],
          has_original_dex_files := true, image_info := none }
        none (some [7]) =
      OatStatus.kOatBootImageOutOfDate :=
  (Status_vdex_fallback
    { runtime_is_cc := true, required_dex_checksums := some [7],
      has_original_dex_files := true, image_info := none } [7]).2.1 (by decide)

/-- C7 counterexample: with the best candidate's status `kOatUpToDate` but
its filter not okay for the target (profile changed and the filter depends
on the profile), `MakeUpToDate` reaches `GenerateOatFileNoChecks` and writes
both output files — refuting "no filesystem writes for every target filter
and profile flag whenever the status is kOatUpToDate". -/
theorem MakeUpToDate_upToDate_writes :
    (MakeUpToDate true true true true true true OatStatus.kOatUpToDate true
        allOkGenEnv { oat_exists := false, vdex_exists := false }).2 ≠
      ({ oat_exists := false, vdex_exists := false } : FsState) := by
  decide

/-- C7 (amended): when the runtime filter option parses, the best
candidate's status is `kOatUpToDate` and its compiler filter is okay for the
target, `MakeUpToDate` returns `kUpdateSucceeded` immediately and the
filesystem state is unchanged. -/
theorem MakeUpToDate_noop_when_filter_ok :
    ∀ (compilation_desired profile_changed file_open dep good orig : Bool)
      (e : GenEnv) (fs : FsState),
      CompilerFilterIsOkay file_open profile_changed dep good = true →
      MakeUpToDate true compilation_desired profile_changed file_open dep good
          OatStatus.kOatUpToDate orig e fs =
        (ResultOfAttemptToUpdate.kUpdateSucceeded, fs) := by
  intro cd pc fo dep good orig e fs h
  simp [MakeUpToDate, GetDexOptNeeded, h]

/-- Witness for C7 (amended): an up-to-date candidate with an acceptable
filter makes `MakeUpToDate` a no-op success. -/
theorem MakeUpToDate_noop_when_filter_ok_witness :
    MakeUpToDate true true false true false true OatStatus.kOatUpToDate true
        allOkGenEnv { oat_exists := true, vdex_exists := true } =
      (ResultOfAttemptToUpdate.kUpdateSucceeded,
        { oat_exists := true, vdex_exists := true }) :=
  MakeUpToDate_noop_when_filter_ok true false true false true true allOkGenEnv
    { oat_exists := true, vdex_exists := true } (by decide)

/-- C8 counterexample: two evaluations with the same writability flag and
the same pair of candidate statuses can select different candidates, because
`GetBestInfo` also consults `HasOriginalDexFiles()` — refuting "selection is
a pure function of the writability flag and the two statuses". -/
theorem GetBestInfo_depends_on_dex_availability :
    GetBestInfo false OatStatus.kOatBootImageOutOfDate OatStatus.kOatCannotOpen true ≠
      GetBestInfo false OatStatus.kOatBootImageOutOfDate OatStatus.kOatCannotOpen false := by
  decide

/-- C8 (amended): `GetBestInfo` is deterministic and a pure function of the
writability flag, the two candidates' statuses, and the availability of the
original dex files: any two evaluations agreeing on all four inputs select
the same candidate. -/
theorem GetBestInfo_deterministic :
    ∀ (w1 w2 : Bool) (s1 s2 t1 t2 : OatStatus) (h1 h2 : Bool),
      w1 = w2 → s1 = s2 → t1 = t2 → h1 = h2 →
      GetBestInfo w1 s1 t1 h1 = GetBestInfo w2 s2 t2 h2 := by
  intro w1 w2 s1 s2 t1 t2 h1 h2 hw hs ht hh
  rw [hw, hs, ht, hh]

/-- Witness for C8 (amended): repeated evaluation at one concrete input. -/
theorem GetBestInfo_deterministic_witness :
    GetBestInfo false OatStatus.kOatDexOutOfDate OatStatus.kOatUpToDate true =
      GetBestInfo false OatStatus.kOatDexOutOfDate OatStatus.kOatUpToDate true :=
  GetBestInfo_deterministic false false OatStatus.kOatDexOutOfDate
    OatStatus.kOatDexOutOfDate OatStatus.kOatUpToDate OatStatus.kOatUpToDate
    true true rfl rfl rfl rfl

set_option synthInstance.maxSize 2000 in
/-- C9: `ReleaseFileForUse` never releases an executable file whose status
is `kOatRelocationOutOfDate` (first conjunct); it returns the file as-is
exactly when the status is `kOatUpToDate`, or `kOatRelocationOutOfDate` with
a non-executable file; an executable file needing relocation is reloaded
non-executable and returned only if then usable, else `none`; and any other
status yields `none`. -/
theorem ReleaseFileForUse_no_executable_relocation :
    ∀ (s1 : OatStatus) (e1 : Bool) (s2 : OatStatus),
      (∀ (st : OatStatus) (ex : Bool), ReleaseFileForUse s1 e1 s2 = some (st, ex) →
        ¬(st = OatStatus.kOatRelocationOutOfDate ∧ ex = true)) ∧
      (s1 = OatStatus.kOatUpToDate → ReleaseFileForUse s1 e1 s2 = some (s1, e1)) ∧
      (s1 = OatStatus.kOatRelocationOutOfDate → e1 = false →
        ReleaseFileForUse s1 e1 s2 = some (s1, e1)) ∧
      (s1 = OatStatus.kOatRelocationOutOfDate → e1 = true →
        ReleaseFileForUse s1 e1 s2 =
          (if IsUseable s2 then some (s2, false) else none)) ∧
      (s1 ≠ OatStatus.kOatUpToDate → s1 ≠ OatStatus.kOatRelocationOutOfDate →
        ReleaseFileForUse s1 e1 s2 = none) := by
  decide

/-- Witness for C9: an executable file needing relocation, whose reload
comes back up to date, is released non-executable. -/
theorem ReleaseFileForUse_no_executable_relocation_witness :
    ReleaseFileForUse OatStatus.kOatRelocationOutOfDate true OatStatus.kOatUpToDate =
      (if IsUseable OatStatus.kOatUpToDate then
        some (OatStatus.kOatUpToDate, false)
      else none) :=
  (ReleaseFileForUse_no_executable_relocation OatStatus.kOatRelocationOutOfDate true
    OatStatus.kOatUpToDate).2.2.2.1 rfl rfl

/-- C10 counterexample: with the best candidate at the oat location and
decision `kNoDexOptNeeded`, the assistant-level value is `0`, which is not
positive — refuting the claim's "(positive)" for the unchanged branch. -/
theorem AssistantGetDexOptNeeded_zero_not_positive :
    ¬(0 < AssistantGetDexOptNeeded true DexOptNeeded.kNoDexOptNeeded) := by
  decide

/-- C10 (amended): the assistant-level `GetDexOptNeeded` returns the best
candidate's decision value unchanged (a non-negative value) when the best
candidate is the oat location or the decision is `kDex2OatFromScratch`, and
its arithmetic negation (a non-positive value) when the best candidate is
the odex location and the decision is anything else. -/
theorem AssistantGetDexOptNeeded_sign :
    ∀ (best_is_oat : Bool) (d : DexOptNeeded),
      ((best_is_oat = true ∨ d = DexOptNeeded.kDex2OatFromScratch) →
        AssistantGetDexOptNeeded best_is_oat d = d.toInt ∧ 0 ≤ d.toInt) ∧
      (best_is_oat = false → d ≠ DexOptNeeded.kDex2OatFromScratch →
        AssistantGetDexOptNeeded best_is_oat d = -d.toInt ∧
          AssistantGetDexOptNeeded best_is_oat d ≤ 0) := by
  decide

/-- Witness for C10 (amended): an odex-location `kDex2OatForFilter` decision
comes back negated and non-positive. -/
theorem AssistantGetDexOptNeeded_sign_witness :
    AssistantGetDexOptNeeded false DexOptNeeded.kDex2OatForFilter =
        -DexOptNeeded.toInt DexOptNeeded.kDex2OatForFilter ∧
      AssistantGetDexOptNeeded false DexOptNeeded.kDex2OatForFilter ≤ 0 :=
  (AssistantGetDexOptNeeded_sign false DexOptNeeded.kDex2OatForFilter).2 rfl
    (by decide)

end OatFileAssistant
